import Mathlib

/-!
Shallow embedding of the skill-doctor validation core
(`src/skill_doctor/models.py` and `src/skill_doctor/validator.py`).

Python values appearing in frontmatter metadata are modelled by `Val`
(strictyaml decodes scalars to strings and nested blocks to dicts/lists).
Unicode-table-dependent Python primitives (`unicodedata.normalize("NFKC", ·)`,
`str.lower`, `str.isalnum`) are parameters bundled in `PyUnicode`; the YAML
decoder (`strictyaml.load` + `.data`) is a parameter `yload`.  The filesystem
touched by `validate_skill` is a record of pure query functions `FS`.
All other logic is translated directly from the source.
-/

namespace SkillDoctor

/-- A decoded frontmatter value: strictyaml's `.data` yields strings for
scalars and dicts/lists for nested blocks (dicts keep insertion order,
modelled as association lists). -/
inductive Val where
  | str (s : String)
  | dict (kvs : List (String × Val))
  | list (vs : List Val)

/-- `models.ValidationError`: message, optional 1-based line, file name
(defaulting to "SKILL.md" in the source), optional suggestion. -/
structure ValidationError where
  message : String
  line : Option Nat
  file : String
  suggestion : Option String
deriving DecidableEq, Repr

/-- `models.ValidationResult`.  `skill_name` is assigned `metadata["name"]`
verbatim in the source, which may be any decoded value, hence `Option Val`. -/
structure ValidationResult where
  skill_path : String
  skill_name : Option Val
  is_valid : Bool
  errors : List ValidationError

/-- `ValidationResult(skill_path=...)` as constructed by the orchestrator:
defaults `skill_name=None`, `is_valid=True`, `errors=[]` (via `__post_init__`). -/
def mkResult (path : String) : ValidationResult :=
  { skill_path := path, skill_name := none, is_valid := true, errors := [] }

/-- `ValidationResult.add_error`: append a `ValidationError` and set
`is_valid = False`.  The source's defaults (`line=None`, `file="SKILL.md"`,
`suggestion=None`) are passed explicitly at each call site below. -/
def ValidationResult.addError (r : ValidationResult) (message : String)
    (line : Option Nat) (file : String) (suggestion : Option String) :
    ValidationResult :=
  { r with errors := r.errors ++ [⟨message, line, file, suggestion⟩],
           is_valid := false }

/-! ### Python string primitives (character-list level, so they reduce in the kernel) -/

/-- Whitespace recognised by Python's `str.strip()` (ASCII portion; exotic
Unicode spaces never appear in the strings any claim touches). -/
def pyWS (c : Char) : Bool :=
  c == ' ' || c == '\t' || c == '\n' || c == '\r' || c == '\x0b' || c == '\x0c'

/-- `str.strip()` on a character list. -/
def stripChars (l : List Char) : List Char :=
  ((l.dropWhile pyWS).reverse.dropWhile pyWS).reverse

/-- `str.strip()`. -/
def pyStrip (s : String) : String := ⟨stripChars s.data⟩

/-- `content.startswith("---")`: the three-character prefix test the source
performs (not a whole-line test). -/
def startsDash3 (s : String) : Bool :=
  match s.data with
  | '-' :: '-' :: '-' :: _ => true
  | _ => false

/-- Split a character list at the first non-overlapping occurrence of `---`,
returning the part before and the part after the separator. -/
def splitFirstDash : List Char → Option (List Char × List Char)
  | '-' :: '-' :: '-' :: rest => some ([], rest)
  | c :: cs => (splitFirstDash cs).map fun p => (c :: p.1, p.2)
  | [] => none

/-- Python `content.split("---", 2)`: at most two splits, remainder kept whole. -/
def pySplit2dash (s : String) : List String :=
  match splitFirstDash s.data with
  | none => [s]
  | some (b1, r1) =>
    match splitFirstDash r1 with
    | none => [⟨b1⟩, ⟨r1⟩]
    | some (b2, r2) => [⟨b1⟩, ⟨b2⟩, ⟨r2⟩]

/-- Python `str(value)` as applied to decoded metadata values.  For strings it
is the identity; the exact text Python produces for nested dicts/lists is
immaterial to every claim and is rendered as a placeholder. -/
def pyStr : Val → String
  | .str s => s
  | .dict _ => "<dict>"
  | .list _ => "<list>"

/-- The `metadata`-subfield coercion in `parse_frontmatter`: when the
`metadata` key maps to a dict, every value inside it is coerced with `str`. -/
def coerceMeta (kvs : List (String × Val)) : List (String × Val) :=
  kvs.map fun kv =>
    if kv.1 == "metadata" then
      match kv.2 with
      | .dict inner => (kv.1, .dict (inner.map fun ik => (ik.1, .str (pyStr ik.2))))
      | v => (kv.1, v)
    else kv

/-- `parse_frontmatter`, parameterised by the YAML decoder `yload`
(modelling `strictyaml.load(...).data`; a `.error` models `YAMLError`).
`ValueError`s raised in the source become `Except.error` with the same message. -/
def parseFrontmatter (yload : String → Except String Val) (content : String) :
    Except String (List (String × Val) × String) :=
  if startsDash3 content = false then
    .error "SKILL.md must start with YAML frontmatter (---)"
  else
    match pySplit2dash content with
    | [_, frontmatterStr, body] =>
      match yload frontmatterStr with
      | .error e => .error ("Invalid YAML in frontmatter: " ++ e)
      | .ok v =>
        match v with
        | .dict kvs => .ok (coerceMeta kvs, pyStrip body)
        | _ => .error "SKILL.md frontmatter must be a YAML mapping"
    | _ => .error "SKILL.md frontmatter not properly closed with ---"

/-! ### Unicode-dependent Python primitives, abstracted -/

/-- The unicode-table-dependent primitives used by `validate_name`:
`unicodedata.normalize("NFKC", ·)`, `str.lower`, `str.isalnum` (per char).
Claims about the validators hold for every choice of these functions. -/
structure PyUnicode where
  nfkc : String → String
  lower : String → String
  isAlnum : Char → Bool

/-- A concrete instantiation used to evaluate the validators on ASCII
inputs, where NFKC is the identity. -/
def asciiU : PyUnicode :=
  { nfkc := fun s => s,
    lower := fun s => ⟨s.data.map Char.toLower⟩,
    isAlnum := Char.isAlphanum }

/-! ### Helpers for `validate_name` -/

/-- `name.startswith("-")`. -/
def startsDash (s : String) : Bool :=
  match s.data with
  | '-' :: _ => true
  | _ => false

/-- `name.endswith("-")`. -/
def endsDash (s : String) : Bool :=
  match s.data.getLast? with
  | some '-' => true
  | _ => false

/-- `"--" in name` on a character list. -/
def hasDashDash : List Char → Bool
  | '-' :: '-' :: _ => true
  | _ :: cs => hasDashDash cs
  | [] => false

/-- `name.strip('-')`. -/
def stripDashes (s : String) : String :=
  ⟨((s.data.dropWhile (· == '-')).reverse.dropWhile (· == '-')).reverse⟩

/-- `re.sub(r'-+', '-', name)`: collapse runs of hyphens; the boolean tracks
whether the previous character was a hyphen. -/
def collapseAux : Bool → List Char → List Char
  | _, [] => []
  | prevDash, c :: cs =>
    if c == '-' then
      if prevDash then collapseAux true cs
      else '-' :: collapseAux true cs
    else c :: collapseAux false cs

/-- `re.sub(r'-+', '-', name)`. -/
def collapseHyph (s : String) : String := ⟨collapseAux false s.data⟩

/-- Insert into a sorted duplicate-free list (for Python `sorted(set(...))`). -/
def insertSortedChar (c : Char) : List Char → List Char
  | [] => [c]
  | d :: ds =>
    if c < d then c :: d :: ds
    else if c == d then d :: ds
    else d :: insertSortedChar c ds

/-- Python `sorted(set(...))` on characters. -/
def sortDedupChars (l : List Char) : List Char :=
  l.foldr insertSortedChar []

/-- Insert into a sorted duplicate-free list of strings. -/
def insertSortedStr (s : String) : List String → List String
  | [] => [s]
  | t :: ts =>
    if s < t then s :: t :: ts
    else if s == t then t :: ts
    else t :: insertSortedStr s ts

/-- Python `sorted(set(...))` / `sorted(...)` on distinct strings. -/
def sortDedupStrs (l : List String) : List String :=
  l.foldr insertSortedStr []

/-! ### Paths and the filesystem interface -/

/-- A filesystem path, as a list of segments.  `Path.name` is the base name
(`pathlib.Path.name`); `/` is `Path.child`. -/
structure Path where
  segments : List String
deriving DecidableEq, Repr

/-- `skill_dir / name`. -/
def Path.child (p : Path) (s : String) : Path := ⟨p.segments ++ [s]⟩

/-- `pathlib.Path.name` (base name). -/
def Path.name (p : Path) : String := (p.segments.getLast?).getD ""

/-- Rendering of a path used in error messages (`f"{skill_dir}"`). -/
def Path.toStr (p : Path) : String := String.intercalate "/" p.segments

/-- The filesystem queries `validate_skill` performs, as pure functions:
`Path.resolve()`, `Path.exists()`, `Path.is_dir()` and
`Path.read_text(encoding="utf-8")` (whose `Except.error` models an
`OSError`/`UnicodeDecodeError` message). -/
structure FS where
  resolve : Path → Path
  pathExists : Path → Bool
  isDir : Path → Bool
  readText : Path → Except String String

/-- `find_skill_md`: prefer `SKILL.md`, fall back to `skill.md`. -/
def findSkillMd (fs : FS) (skillDir : Path) : Option Path :=
  if fs.pathExists (skillDir.child "SKILL.md") then some (skillDir.child "SKILL.md")
  else if fs.pathExists (skillDir.child "skill.md") then some (skillDir.child "skill.md")
  else none

/-! ### Field validators -/

/-- `MAX_SKILL_NAME_LENGTH`. -/
def maxSkillNameLength : Nat := 64

/-- `MAX_DESCRIPTION_LENGTH`. -/
def maxDescriptionLength : Nat := 1024

/-- `MAX_COMPATIBILITY_LENGTH`. -/
def maxCompatibilityLength : Nat := 500

/-- `ALLOWED_FIELDS` (written in the source as a set; order immaterial). -/
def allowedFields : List String :=
  ["name", "description", "license", "allowed-tools", "metadata", "compatibility"]

/-- `validate_name`.  The guard `not name or not isinstance(name, str) or not
name.strip()` sends every non-string value and every blank string to the
same error; afterwards `name` is rebound to the NFKC-normalised stripped
value and each check appends independently. -/
def validateName (U : PyUnicode) (name : Val) (skillDir : Option Path)
    (result : ValidationResult) : ValidationResult :=
  match name with
  | .str s =>
    if s == "" || pyStrip s == "" then
      result.addError "Field 'name' must be a non-empty string" (some 2) "SKILL.md"
        (some "Add a name field with a valid skill name")
    else
      let n := U.nfkc (pyStrip s)
      let r := result
      let r :=
        if n.length > maxSkillNameLength then
          r.addError
            ("Skill name '" ++ n ++ "' exceeds " ++ toString maxSkillNameLength ++
              " character limit (" ++ toString n.length ++ " chars)")
            (some 2) "SKILL.md"
            (some ("Shorten the name to " ++ toString maxSkillNameLength ++
              " characters or less"))
        else r
      let r :=
        if n ≠ U.lower n then
          r.addError ("Skill name '" ++ n ++ "' must be lowercase") (some 2) "SKILL.md"
            (some ("Change to '" ++ U.lower n ++ "'"))
        else r
      let r :=
        if startsDash n || endsDash n then
          r.addError "Skill name cannot start or end with a hyphen" (some 2) "SKILL.md"
            (some ("Remove leading/trailing hyphens: '" ++ stripDashes n ++ "'"))
        else r
      let r :=
        if hasDashDash n.data then
          r.addError "Skill name cannot contain consecutive hyphens" (some 2) "SKILL.md"
            (some ("Replace consecutive hyphens: '" ++ collapseHyph n ++ "'"))
        else r
      let r :=
        if !(n.data.all fun c => U.isAlnum c || c == '-') then
          r.addError
            ("Skill name '" ++ n ++ "' contains invalid characters: " ++
              String.intercalate ", "
                ((sortDedupChars (n.data.filter fun c => !(U.isAlnum c || c == '-'))).map
                  Char.toString))
            (some 2) "SKILL.md" (some "Only letters, digits, and hyphens are allowed")
        else r
      match skillDir with
      | some d =>
        if U.nfkc d.name ≠ n then
          r.addError
            ("Directory name '" ++ d.name ++ "' must match skill name '" ++ n ++ "'")
            (some 2) "SKILL.md" (some ("Rename directory to '" ++ n ++ "'"))
        else r
      | none => r
  | _ =>
    result.addError "Field 'name' must be a non-empty string" (some 2) "SKILL.md"
      (some "Add a name field with a valid skill name")

/-- `validate_description`.  The argument is `Option Val`: `none` models
passing Python `None` (a missing value), which the guard
`not description or not isinstance(description, str) or not
description.strip()` also catches. -/
def validateDescription (description : Option Val) (result : ValidationResult) :
    ValidationResult :=
  match description with
  | some (.str s) =>
    if s == "" || pyStrip s == "" then
      result.addError "Field 'description' must be a non-empty string" (some 3) "SKILL.md"
        (some "Add a clear description of what the skill does and when to use it")
    else if s.length > maxDescriptionLength then
      result.addError
        ("Description exceeds " ++ toString maxDescriptionLength ++
          " character limit (" ++ toString s.length ++ " chars)")
        (some 3) "SKILL.md"
        (some ("Trim description to " ++ toString maxDescriptionLength ++
          " characters or less"))
    else result
  | _ =>
    result.addError "Field 'description' must be a non-empty string" (some 3) "SKILL.md"
      (some "Add a clear description of what the skill does and when to use it")

/-- `validate_compatibility`. -/
def validateCompatibility (compatibility : Val) (result : ValidationResult) :
    ValidationResult :=
  match compatibility with
  | .str s =>
    if s.length > maxCompatibilityLength then
      result.addError
        ("Compatibility exceeds " ++ toString maxCompatibilityLength ++
          " character limit (" ++ toString s.length ++ " chars)")
        none "SKILL.md"
        (some ("Trim compatibility to " ++ toString maxCompatibilityLength ++
          " characters or less"))
    else result
  | _ =>
    result.addError "Field 'compatibility' must be a string" none "SKILL.md"
      (some "Ensure compatibility field is a string value")

/-- `validate_metadata_fields`: one combined error listing the sorted extra
field names. -/
def validateMetadataFields (metadata : List (String × Val))
    (result : ValidationResult) : ValidationResult :=
  let extra := sortDedupStrs ((metadata.map (·.1)).filter fun k => !(allowedFields.contains k))
  if extra.isEmpty then result
  else
    result.addError
      ("Unexpected fields in frontmatter: " ++ String.intercalate ", " extra)
      (some 1) "SKILL.md"
      (some ("Remove unexpected fields or check spelling. Allowed fields: " ++
        String.intercalate ", " (sortDedupStrs allowedFields)))

/-! ### The orchestrator -/

/-- Lines 232-257 of `validate_skill`: whitelist check, required-field
detection for `name` and `description` (each either emitting the
missing-field error or invoking the field validator), then the optional
`compatibility` validator. -/
def fieldPhase (U : PyUnicode) (metadata : List (String × Val)) (skillDir : Path)
    (result : ValidationResult) : ValidationResult :=
  let r := validateMetadataFields metadata result
  let r :=
    match List.lookup "name" metadata with
    | none =>
      r.addError "Missing required field in frontmatter: name" (some 1) "SKILL.md"
        (some "Add 'name: your-skill-name' to the frontmatter")
    | some v => validateName U v (some skillDir) { r with skill_name := some v }
  let r :=
    match List.lookup "description" metadata with
    | none =>
      r.addError "Missing required field in frontmatter: description" (some 1) "SKILL.md"
        (some "Add 'description: what this skill does' to the frontmatter")
    | some v => validateDescription (some v) r
  match List.lookup "compatibility" metadata with
  | some v => validateCompatibility v r
  | none => r

/-- `validate_skill`: the orchestrator.  Every `except` branch of the source
becomes a `match` on an `Except` value, so the function is total — no
failure propagates past it. -/
def validateSkill (U : PyUnicode) (yload : String → Except String Val) (fs : FS)
    (skillDir : Path) : ValidationResult :=
  let d := fs.resolve skillDir
  let result := mkResult d.toStr
  if fs.pathExists d = false then
    result.addError ("Path does not exist: " ++ d.toStr) none "SKILL.md" none
  else if fs.isDir d = false then
    result.addError ("Not a directory: " ++ d.toStr) none "SKILL.md" none
  else
    match findSkillMd fs d with
    | none =>
      result.addError "Missing required file: SKILL.md" none "SKILL.md"
        (some "Create a SKILL.md file with YAML frontmatter and instructions")
    | some skillMd =>
      match fs.readText skillMd with
      | .error e => result.addError ("Error reading SKILL.md: " ++ e) none "SKILL.md" none
      | .ok content =>
        match parseFrontmatter yload content with
        | .error e => result.addError e none "SKILL.md" none
        | .ok (metadata, _) => fieldPhase U metadata d result

/-! ### Error-list characterizations of the validators

Each validator only ever appends to `result.errors`; the following
definitions give the exact list it appends, and the lemmas below prove the
correspondence. -/

/-- The blank/non-string `name` error. -/
def nameBlankErr : ValidationError :=
  ⟨"Field 'name' must be a non-empty string", some 2, "SKILL.md",
    some "Add a name field with a valid skill name"⟩

/-- The `name` length error. -/
def nameLenErr (n : String) : ValidationError :=
  ⟨"Skill name '" ++ n ++ "' exceeds " ++ toString maxSkillNameLength ++
      " character limit (" ++ toString n.length ++ " chars)", some 2, "SKILL.md",
    some ("Shorten the name to " ++ toString maxSkillNameLength ++ " characters or less")⟩

/-- The `name` lowercase error. -/
def nameLowerErr (U : PyUnicode) (n : String) : ValidationError :=
  ⟨"Skill name '" ++ n ++ "' must be lowercase", some 2, "SKILL.md",
    some ("Change to '" ++ U.lower n ++ "'")⟩

/-- The leading/trailing-hyphen error. -/
def nameEdgeHyphenErr (n : String) : ValidationError :=
  ⟨"Skill name cannot start or end with a hyphen", some 2, "SKILL.md",
    some ("Remove leading/trailing hyphens: '" ++ stripDashes n ++ "'")⟩

/-- The consecutive-hyphens error. -/
def nameDoubleHyphenErr (n : String) : ValidationError :=
  ⟨"Skill name cannot contain consecutive hyphens", some 2, "SKILL.md",
    some ("Replace consecutive hyphens: '" ++ collapseHyph n ++ "'")⟩

/-- The invalid-characters error. -/
def nameCharsErr (U : PyUnicode) (n : String) : ValidationError :=
  ⟨"Skill name '" ++ n ++ "' contains invalid characters: " ++
      String.intercalate ", "
        ((sortDedupChars (n.data.filter fun c => !(U.isAlnum c || c == '-'))).map
          Char.toString), some 2, "SKILL.md",
    some "Only letters, digits, and hyphens are allowed"⟩

/-- The directory-mismatch error (`dirName` is the directory's base name,
`n` the normalised skill name). -/
def dirMismatchErr (dirName n : String) : ValidationError :=
  ⟨"Directory name '" ++ dirName ++ "' must match skill name '" ++ n ++ "'",
    some 2, "SKILL.md", some ("Rename directory to '" ++ n ++ "'")⟩

/-- The five independent format checks of `validate_name` on the normalised
name `n`: each contributes its error exactly when its condition holds. -/
def nameCheckErrs (U : PyUnicode) (n : String) : List ValidationError :=
  (if n.length > maxSkillNameLength then [nameLenErr n] else []) ++
  (if n ≠ U.lower n then [nameLowerErr U n] else []) ++
  (if startsDash n || endsDash n then [nameEdgeHyphenErr n] else []) ++
  (if hasDashDash n.data then [nameDoubleHyphenErr n] else []) ++
  (if !(n.data.all fun c => U.isAlnum c || c == '-') then [nameCharsErr U n] else [])

/-- All errors `validate_name` appends, for any input value. -/
def validateNameErrs (U : PyUnicode) (v : Val) (skillDir : Option Path) :
    List ValidationError :=
  match v with
  | .str s =>
    if s == "" || pyStrip s == "" then [nameBlankErr]
    else
      let n := U.nfkc (pyStrip s)
      nameCheckErrs U n ++
        (match skillDir with
         | some d => if U.nfkc d.name ≠ n then [dirMismatchErr d.name n] else []
         | none => [])
  | _ => [nameBlankErr]

/-- The blank/non-string `description` error. -/
def descBlankErr : ValidationError :=
  ⟨"Field 'description' must be a non-empty string", some 3, "SKILL.md",
    some "Add a clear description of what the skill does and when to use it"⟩

/-- The `description` length error. -/
def descLenErr (s : String) : ValidationError :=
  ⟨"Description exceeds " ++ toString maxDescriptionLength ++
      " character limit (" ++ toString s.length ++ " chars)", some 3, "SKILL.md",
    some ("Trim description to " ++ toString maxDescriptionLength ++ " characters or less")⟩

/-- All errors `validate_description` appends. -/
def descErrs (description : Option Val) : List ValidationError :=
  match description with
  | some (.str s) =>
    if s == "" || pyStrip s == "" then [descBlankErr]
    else if s.length > maxDescriptionLength then [descLenErr s]
    else []
  | _ => [descBlankErr]

/-- All errors `validate_compatibility` appends. -/
def compatErrs (compatibility : Val) : List ValidationError :=
  match compatibility with
  | .str s =>
    if s.length > maxCompatibilityLength then
      [⟨"Compatibility exceeds " ++ toString maxCompatibilityLength ++
          " character limit (" ++ toString s.length ++ " chars)", none, "SKILL.md",
        some ("Trim compatibility to " ++ toString maxCompatibilityLength ++
          " characters or less")⟩]
    else []
  | _ =>
    [⟨"Field 'compatibility' must be a string", none, "SKILL.md",
      some "Ensure compatibility field is a string value"⟩]

/-- All errors `validate_metadata_fields` appends. -/
def wlErrs (metadata : List (String × Val)) : List ValidationError :=
  let extra := sortDedupStrs ((metadata.map (·.1)).filter fun k => !(allowedFields.contains k))
  if extra.isEmpty then []
  else
    [⟨"Unexpected fields in frontmatter: " ++ String.intercalate ", " extra,
      some 1, "SKILL.md",
      some ("Remove unexpected fields or check spelling. Allowed fields: " ++
        String.intercalate ", " (sortDedupStrs allowedFields))⟩]

/-- The missing-`name` error emitted by the orchestrator. -/
def missingNameErr : ValidationError :=
  ⟨"Missing required field in frontmatter: name", some 1, "SKILL.md",
    some "Add 'name: your-skill-name' to the frontmatter"⟩

/-- The missing-`description` error emitted by the orchestrator. -/
def missingDescErr : ValidationError :=
  ⟨"Missing required field in frontmatter: description", some 1, "SKILL.md",
    some "Add 'description: what this skill does' to the frontmatter"⟩

/-- Errors contributed by the `name` step of the field phase. -/
def namePhaseErrs (U : PyUnicode) (metadata : List (String × Val)) (d : Path) :
    List ValidationError :=
  match List.lookup "name" metadata with
  | none => [missingNameErr]
  | some v => validateNameErrs U v (some d)

/-- Errors contributed by the `description` step of the field phase. -/
def descPhaseErrs (metadata : List (String × Val)) : List ValidationError :=
  match List.lookup "description" metadata with
  | none => [missingDescErr]
  | some v => descErrs (some v)

/-- Errors contributed by the `compatibility` step of the field phase. -/
def compatPhaseErrs (metadata : List (String × Val)) : List ValidationError :=
  match List.lookup "compatibility" metadata with
  | some v => compatErrs v
  | none => []

/-! ### Correspondence lemmas -/

theorem errors_addError (r : ValidationResult) (m : String) (l : Option Nat)
    (f : String) (sg : Option String) :
    (r.addError m l f sg).errors = r.errors ++ [⟨m, l, f, sg⟩] := rfl

theorem errors_ite_addError (c : Prop) [Decidable c] (r : ValidationResult)
    (m : String) (l : Option Nat) (f : String) (sg : Option String) :
    (if c then r.addError m l f sg else r).errors =
      r.errors ++ (if c then [(⟨m, l, f, sg⟩ : ValidationError)] else []) := by
  split <;> simp [errors_addError]

theorem validateName_errors (U : PyUnicode) (v : Val) (skillDir : Option Path)
    (r : ValidationResult) :
    (validateName U v skillDir r).errors = r.errors ++ validateNameErrs U v skillDir := by
  cases v with
  | dict kvs => simp [validateName, validateNameErrs, errors_addError, nameBlankErr]
  | list vs => simp [validateName, validateNameErrs, errors_addError, nameBlankErr]
  | str s =>
    by_cases hg : (s == "" || pyStrip s == "") = true
    · simp [validateName, validateNameErrs, hg, errors_addError, nameBlankErr]
    · cases skillDir with
      | none =>
        simp only [validateName, validateNameErrs, hg, if_false, Bool.false_eq_true,
          errors_ite_addError, errors_addError]
        simp [nameCheckErrs, nameLenErr, nameLowerErr, nameEdgeHyphenErr,
          nameDoubleHyphenErr, nameCharsErr, List.append_assoc]
      | some d =>
        simp only [validateName, validateNameErrs, hg, if_false, Bool.false_eq_true,
          errors_ite_addError, errors_addError]
        simp [nameCheckErrs, nameLenErr, nameLowerErr, nameEdgeHyphenErr,
          nameDoubleHyphenErr, nameCharsErr, dirMismatchErr, List.append_assoc]

theorem validateDescription_errors (v : Option Val) (r : ValidationResult) :
    (validateDescription v r).errors = r.errors ++ descErrs v := by
  match v with
  | none => simp [validateDescription, descErrs, errors_addError, descBlankErr]
  | some (.dict kvs) => simp [validateDescription, descErrs, errors_addError, descBlankErr]
  | some (.list vs) => simp [validateDescription, descErrs, errors_addError, descBlankErr]
  | some (.str s) =>
    simp only [validateDescription, descErrs]
    split
    · simp [errors_addError, descBlankErr]
    · split <;> simp [errors_addError, descLenErr]

theorem validateCompatibility_errors (v : Val) (r : ValidationResult) :
    (validateCompatibility v r).errors = r.errors ++ compatErrs v := by
  match v with
  | .dict kvs => simp [validateCompatibility, compatErrs, errors_addError]
  | .list vs => simp [validateCompatibility, compatErrs, errors_addError]
  | .str s =>
    simp only [validateCompatibility, compatErrs]
    split <;> simp [errors_addError]

theorem validateMetadataFields_errors (metadata : List (String × Val))
    (r : ValidationResult) :
    (validateMetadataFields metadata r).errors = r.errors ++ wlErrs metadata := by
  simp only [validateMetadataFields, wlErrs]
  split <;> simp [errors_addError]

theorem errors_set_skill_name (r : ValidationResult) (v : Option Val) :
    ({ r with skill_name := v } : ValidationResult).errors = r.errors := rfl

/-- The whole field-validation phase appends exactly the whitelist errors,
then the `name` step's errors, then the `description` step's, then the
`compatibility` step's, in that order. -/
theorem fieldPhase_errors (U : PyUnicode) (metadata : List (String × Val))
    (d : Path) (r : ValidationResult) :
    (fieldPhase U metadata d r).errors =
      r.errors ++ wlErrs metadata ++ namePhaseErrs U metadata d ++
        descPhaseErrs metadata ++ compatPhaseErrs metadata := by
  simp only [fieldPhase, namePhaseErrs, descPhaseErrs, compatPhaseErrs]
  cases hn : List.lookup "name" metadata <;>
    cases hd : List.lookup "description" metadata <;>
      cases hc : List.lookup "compatibility" metadata <;>
        simp [validateMetadataFields_errors, validateName_errors,
          validateDescription_errors, validateCompatibility_errors,
          errors_addError, errors_set_skill_name, missingNameErr, missingDescErr,
          List.append_assoc]

/-! ### Claim C1: the `is_valid` / `errors` invariant -/

/-- The argument quadruple of one `add_error` call. -/
structure AddErrorCall where
  message : String
  line : Option Nat
  file : String
  suggestion : Option String

/-- Apply a sequence of `add_error` calls to a result. -/
def applyAddErrors (r : ValidationResult) (calls : List AddErrorCall) : ValidationResult :=
  calls.foldl (fun acc c => acc.addError c.message c.line c.file c.suggestion) r

theorem isEmpty_append_singleton (l : List ValidationError) (e : ValidationError) :
    (l ++ [e]).isEmpty = false := by
  cases l <;> rfl

theorem applyAddErrors_invariant :
    ∀ (calls : List AddErrorCall) (r : ValidationResult),
      r.is_valid = r.errors.isEmpty →
      (applyAddErrors r calls).is_valid = (applyAddErrors r calls).errors.isEmpty := by
  intro calls
  induction calls with
  | nil => intro r h; exact h
  | cons c cs ih =>
    intro r _
    have hstep : (r.addError c.message c.line c.file c.suggestion).is_valid =
        (r.addError c.message c.line c.file c.suggestion).errors.isEmpty := by
      simp [ValidationResult.addError, isEmpty_append_singleton]
    exact ih (r.addError c.message c.line c.file c.suggestion) hstep

/-- C1: starting from a freshly constructed `ValidationResult`, after any
sequence of `add_error` calls the `is_valid` flag equals the emptiness of the
`errors` list: each `add_error` appends one `ValidationError` and sets the
flag to `false` in the same operation, the flag is never reset to `true`, and
no error is added without flipping the flag. -/
theorem addError_isValid_iff_errors_empty (path : String) (calls : List AddErrorCall) :
    (applyAddErrors (mkResult path) calls).is_valid =
      (applyAddErrors (mkResult path) calls).errors.isEmpty :=
  applyAddErrors_invariant calls (mkResult path) rfl

/-! ### Claim C2: the orchestrator captures every failure mode -/

/-- C2: `validate_skill` is a total function of its inputs (the embedding
returns a `ValidationResult`, never an exception), and each terminal failure
mode — nonexistent path, path not a directory, missing SKILL.md, read/decode
failure, `FormatError` from the parser — leaves exactly the one error that
records it on the result, so no field validation runs after such a failure. -/
theorem validateSkill_never_raises_terminal_errors (U : PyUnicode)
    (yload : String → Except String Val) (fs : FS) (p : Path) :
    (fs.pathExists (fs.resolve p) = false →
      (validateSkill U yload fs p).errors =
        [⟨"Path does not exist: " ++ (fs.resolve p).toStr, none, "SKILL.md", none⟩]) ∧
    (fs.pathExists (fs.resolve p) = true → fs.isDir (fs.resolve p) = false →
      (validateSkill U yload fs p).errors =
        [⟨"Not a directory: " ++ (fs.resolve p).toStr, none, "SKILL.md", none⟩]) ∧
    (fs.pathExists (fs.resolve p) = true → fs.isDir (fs.resolve p) = true →
      findSkillMd fs (fs.resolve p) = none →
      (validateSkill U yload fs p).errors =
        [⟨"Missing required file: SKILL.md", none, "SKILL.md",
          some "Create a SKILL.md file with YAML frontmatter and instructions"⟩]) ∧
    (∀ q e, fs.pathExists (fs.resolve p) = true → fs.isDir (fs.resolve p) = true →
      findSkillMd fs (fs.resolve p) = some q → fs.readText q = Except.error e →
      (validateSkill U yload fs p).errors =
        [⟨"Error reading SKILL.md: " ++ e, none, "SKILL.md", none⟩]) ∧
    (∀ q c e, fs.pathExists (fs.resolve p) = true → fs.isDir (fs.resolve p) = true →
      findSkillMd fs (fs.resolve p) = some q → fs.readText q = Except.ok c →
      parseFrontmatter yload c = Except.error e →
      (validateSkill U yload fs p).errors = [⟨e, none, "SKILL.md", none⟩]) := by
  refine ⟨?_, ?_, ?_, ?_, ?_⟩
  · intro h1
    simp [validateSkill, h1, mkResult, errors_addError]
  · intro h1 h2
    simp [validateSkill, h1, h2, mkResult, errors_addError]
  · intro h1 h2 h3
    simp [validateSkill, h1, h2, h3, mkResult, errors_addError]
  · intro q e h1 h2 h3 h4
    simp [validateSkill, h1, h2, h3, h4, mkResult, errors_addError]
  · intro q c e h1 h2 h3 h4 h5
    simp [validateSkill, h1, h2, h3, h4, h5, mkResult, errors_addError]

/-! ### Claim C9: determinism / no hidden state -/

/-- C9: the outcome of `validate_skill` depends only on the directory path
and the filesystem's answers about that directory and its two candidate
metadata files.  Two filesystems agreeing on those queries give
field-by-field identical results — in particular validating the same
directory twice (`fs₂ = fs₁`) yields identical results. -/
theorem validateSkill_deterministic_frame (U : PyUnicode)
    (yload : String → Except String Val) (fs1 fs2 : FS) (p : Path) (d : Path)
    (hd1 : fs1.resolve p = d) (hd2 : fs2.resolve p = d)
    (hex : fs1.pathExists d = fs2.pathExists d)
    (hdir : fs1.isDir d = fs2.isDir d)
    (hup : fs1.pathExists (d.child "SKILL.md") = fs2.pathExists (d.child "SKILL.md"))
    (hlo : fs1.pathExists (d.child "skill.md") = fs2.pathExists (d.child "skill.md"))
    (hrup : fs1.readText (d.child "SKILL.md") = fs2.readText (d.child "SKILL.md"))
    (hrlo : fs1.readText (d.child "skill.md") = fs2.readText (d.child "skill.md")) :
    validateSkill U yload fs1 p = validateSkill U yload fs2 p := by
  simp only [validateSkill, findSkillMd, hd1, hd2, hex, hdir, hup, hlo, hrup, hrlo]
  cases hq : fs2.pathExists (d.child "SKILL.md") <;>
    cases hq2 : fs2.pathExists (d.child "skill.md") <;>
      simp [hq, hq2, hrup, hrlo]

/-! ### Claims C3 and C7: the delimiter logic of `parse_frontmatter` -/

/-- The predicate the spec's words describe for C3 (to be compared with the
source's prefix test `startsDash3`): the content begins with a delimiter
LINE consisting of exactly `---`, i.e. it is exactly `---` or starts with
`---` followed by a line break. -/
def specDelimLineStart (s : String) : Bool :=
  s == "---" ||
    (match s.data with
     | '-' :: '-' :: '-' :: '\n' :: _ => true
     | _ => false)

/-- A decoder stand-in for counterexamples in which decoding is never reached. -/
def yUnused : String → Except String Val := fun _ => Except.error "unused"

/-- A decoder stand-in that decodes every block to the empty mapping. -/
def yEmptyDict : String → Except String Val := fun _ => Except.ok (Val.dict [])

/-- C3 (counterexample): the content `"---x"` does not begin with a delimiter
line consisting of exactly `---`, yet `parse_frontmatter` fails on it with the
not-closed error, not the missing-frontmatter error — the source tests only
the three-character prefix `---`. -/
theorem parseFrontmatter_delimLine_counterexample :
    specDelimLineStart "---x" = false ∧
    parseFrontmatter yUnused "---x" =
      Except.error "SKILL.md frontmatter not properly closed with ---" ∧
    "SKILL.md frontmatter not properly closed with ---" ≠
      "SKILL.md must start with YAML frontmatter (---)" := by
  refine ⟨rfl, rfl, by decide⟩

theorem str_data_append (a b : String) : (a ++ b).data = a.data ++ b.data := by
  cases a
  cases b
  rfl

theorem yamlWrap_ne_missing (e : String) :
    ("Invalid YAML in frontmatter: " ++ e) ≠
      "SKILL.md must start with YAML frontmatter (---)" := by
  intro h
  have h2 := congrArg String.data h
  rw [str_data_append] at h2
  have h3 : ("Invalid YAML in frontmatter: " : String).data =
      'I' :: ("nvalid YAML in frontmatter: " : String).data := rfl
  have h4 : ("SKILL.md must start with YAML frontmatter (---)" : String).data =
      'S' :: ("KILL.md must start with YAML frontmatter (---)" : String).data := rfl
  rw [h3, h4, List.cons_append] at h2
  injection h2 with h5 _
  exact absurd h5 (by decide)

/-- C3 (amended): `parse_frontmatter` fails with the missing-frontmatter
error exactly when the content does not start with the three-character
prefix `---` — whether or not that prefix forms a whole delimiter line. -/
theorem parseFrontmatter_missing_iff_no_prefix (yload : String → Except String Val)
    (content : String) :
    parseFrontmatter yload content =
        Except.error "SKILL.md must start with YAML frontmatter (---)" ↔
      startsDash3 content = false := by
  constructor
  · intro h
    cases hs : startsDash3 content
    · rfl
    · exfalso
      rw [parseFrontmatter, hs] at h
      simp only [Bool.true_eq_false, if_false] at h
      split at h
      · split at h
        · injection h with h6
          exact yamlWrap_ne_missing _ h6
        · split at h
          · exact Except.noConfusion h
          · injection h with h6
            exact absurd h6 (by decide)
      · injection h with h6
        exact absurd h6 (by decide)
  · intro h
    simp [parseFrontmatter, h]

/-- C7: when the content begins with the opening delimiter but splitting on
the first two occurrences of `---` yields fewer than three segments, the
parser fails with the not-closed error; when two occurrences exist and the
frontmatter block decodes to a mapping, it returns the (metadata-coerced)
mapping together with the third segment stripped of surrounding whitespace. -/
theorem parseFrontmatter_notClosed_and_success (yload : String → Except String Val)
    (content : String) :
    (startsDash3 content = true → (pySplit2dash content).length < 3 →
      parseFrontmatter yload content =
        Except.error "SKILL.md frontmatter not properly closed with ---") ∧
    (∀ pre fm body kvs, startsDash3 content = true →
      pySplit2dash content = [pre, fm, body] →
      yload fm = Except.ok (Val.dict kvs) →
      parseFrontmatter yload content = Except.ok (coerceMeta kvs, pyStrip body)) := by
  constructor
  · intro hs hlen
    rw [parseFrontmatter, hs]
    simp only [Bool.true_eq_false, if_false]
    rcases hsp : pySplit2dash content with - | ⟨a, - | ⟨b, - | ⟨c, - | ⟨e4, rest⟩⟩⟩⟩
    · rfl
    · rfl
    · rfl
    · rw [hsp] at hlen
      simp at hlen
    · rfl
  · intro pre fm body kvs hs hsp hy
    rw [parseFrontmatter, hs]
    simp only [Bool.true_eq_false, if_false]
    rw [hsp]
    simp [hy]

/-- C7 witness: an unclosed frontmatter fails with the not-closed error, and
a closed one with a decodable block parses to the mapping and stripped body. -/
theorem parseFrontmatter_notClosed_and_success_witness :
    parseFrontmatter yEmptyDict "---\nname: x\n" =
      Except.error "SKILL.md frontmatter not properly closed with ---" ∧
    parseFrontmatter yEmptyDict "---\na: b\n---\n body " =
      Except.ok (coerceMeta [], pyStrip "\n body ") :=
  ⟨(parseFrontmatter_notClosed_and_success yEmptyDict "---\nname: x\n").1 rfl (by decide),
   (parseFrontmatter_notClosed_and_success yEmptyDict "---\na: b\n---\n body ").2
     "" "\na: b\n" "\n body " [] rfl (by decide) rfl⟩

/-! ### Claim C4: required-field detection -/

/-- C4 (counterexample): with `name` absent from the metadata, the field
phase emits exactly one error, whose message is
"Missing required field in frontmatter: name" — not the message
"Missing required field: name" the claim quotes. -/
theorem missing_name_message_counterexample :
    (fieldPhase asciiU [("description", Val.str "d")] ⟨["x", "d"]⟩ (mkResult "p")).errors =
      [missingNameErr] ∧
    missingNameErr.message = "Missing required field in frontmatter: name" ∧
    "Missing required field in frontmatter: name" ≠ "Missing required field: name" := by
  refine ⟨rfl, rfl, by decide⟩

/-- C4 (amended): if the metadata mapping lacks the key `name`, the field
phase contributes exactly the single error `missingNameErr` (message
"Missing required field in frontmatter: name", line 1, with a suggestion to
add the field) in place of any `validate_name` output, and the name
validator is not invoked; symmetrically for `description`. -/
theorem fieldPhase_missing_required_fields (U : PyUnicode)
    (metadata : List (String × Val)) (d : Path) (r : ValidationResult) :
    (List.lookup "name" metadata = none →
      (fieldPhase U metadata d r).errors =
        r.errors ++ wlErrs metadata ++ [missingNameErr] ++ descPhaseErrs metadata ++
          compatPhaseErrs metadata) ∧
    (List.lookup "description" metadata = none →
      (fieldPhase U metadata d r).errors =
        r.errors ++ wlErrs metadata ++ namePhaseErrs U metadata d ++ [missingDescErr] ++
          compatPhaseErrs metadata) := by
  constructor
  · intro hn
    rw [fieldPhase_errors]
    simp [namePhaseErrs, hn]
  · intro hd
    rw [fieldPhase_errors]
    simp [descPhaseErrs, hd]

/-- C4 witness. -/
theorem fieldPhase_missing_required_fields_witness :
    (fieldPhase asciiU [("description", Val.str "ok")] ⟨["x", "s"]⟩ (mkResult "q")).errors =
      (mkResult "q").errors ++ wlErrs [("description", Val.str "ok")] ++ [missingNameErr] ++
        descPhaseErrs [("description", Val.str "ok")] ++
        compatPhaseErrs [("description", Val.str "ok")] :=
  (fieldPhase_missing_required_fields asciiU [("description", Val.str "ok")]
    ⟨["x", "s"]⟩ (mkResult "q")).1 rfl

/-! ### Claim C5: the five independent name checks -/

/-- C5: for a string name that is non-blank after trimming, with `n` the
NFKC normalisation of the trimmed value and no directory context, the name
validator appends exactly those errors among the five checks (length > 64,
not equal to its own lowercased form, leading/trailing hyphen, consecutive
hyphens, characters outside alphanumerics-plus-hyphen) whose condition
holds on `n`, each check independent of the others. -/
theorem validateName_checks_independent (U : PyUnicode) (s : String)
    (r : ValidationResult) (h : pyStrip s ≠ "") :
    (validateName U (.str s) none r).errors =
      r.errors ++ nameCheckErrs U (U.nfkc (pyStrip s)) := by
  have hne : s ≠ "" := fun he => h (by rw [he]; rfl)
  rw [validateName_errors]
  simp only [validateNameErrs]
  simp [hne, h]

/-- C5 witness: a single name triggering three of the five checks at once. -/
theorem validateName_checks_independent_witness :
    (validateName asciiU (.str "My--Skill-") none (mkResult "p")).errors =
      (mkResult "p").errors ++ nameCheckErrs asciiU (asciiU.nfkc (pyStrip "My--Skill-")) :=
  validateName_checks_independent asciiU "My--Skill-" (mkResult "p") (by decide)

/-! ### Claim C6: the directory-mismatch check -/

/-- C6: with a directory context and a non-blank string name, the validator
appends the directory-mismatch error (naming both values and suggesting a
rename) exactly when the NFKC-normalised base name of the directory differs
from `n`, the NFKC-normalised trimmed (pre-lowercase) name — after the five
format checks. -/
theorem validateName_directory_mismatch_iff (U : PyUnicode) (s : String) (d : Path)
    (r : ValidationResult) (h : pyStrip s ≠ "") :
    (validateName U (.str s) (some d) r).errors =
      r.errors ++ nameCheckErrs U (U.nfkc (pyStrip s)) ++
        (if U.nfkc d.name ≠ U.nfkc (pyStrip s) then
          [dirMismatchErr d.name (U.nfkc (pyStrip s))]
        else []) := by
  have hne : s ≠ "" := fun he => h (by rw [he]; rfl)
  rw [validateName_errors]
  simp only [validateNameErrs]
  simp [hne, h, List.append_assoc]

/-- C6 witness: directory `other` versus name `good-name` emits exactly the
mismatch error. -/
theorem validateName_directory_mismatch_iff_witness :
    (validateName asciiU (.str "good-name") (some ⟨["x", "other"]⟩) (mkResult "p")).errors =
      (mkResult "p").errors ++ nameCheckErrs asciiU (asciiU.nfkc (pyStrip "good-name")) ++
        (if asciiU.nfkc (Path.name ⟨["x", "other"]⟩) ≠ asciiU.nfkc (pyStrip "good-name") then
          [dirMismatchErr (Path.name ⟨["x", "other"]⟩) (asciiU.nfkc (pyStrip "good-name"))]
        else []) :=
  validateName_directory_mismatch_iff asciiU "good-name" ⟨["x", "other"]⟩ (mkResult "p")
    (by decide)

/-! ### Claim C8: the description validator -/

/-- C8: a missing (`none`), non-string, or blank-after-trimming description
value yields exactly the "must be a non-empty string" error at line 3 and the
length check is skipped; otherwise the validator appends the
"Description exceeds ..." error (with the character count) exactly when the
raw, untrimmed length exceeds 1024 characters. -/
theorem validateDescription_cases (v : Option Val) (r : ValidationResult) :
    ((match v with
      | some (.str s) => pyStrip s = ""
      | _ => True) →
      (validateDescription v r).errors = r.errors ++ [descBlankErr]) ∧
    (∀ s, v = some (.str s) → pyStrip s ≠ "" →
      (validateDescription v r).errors =
        r.errors ++ (if s.length > maxDescriptionLength then [descLenErr s] else [])) := by
  constructor
  · intro hg
    rw [validateDescription_errors]
    rcases v with - | v
    · rfl
    · rcases v with s | kvs | vs
      · simp only [descErrs]
        simp [hg]
      · rfl
      · rfl
  · intro s hv hns
    subst hv
    have hne : s ≠ "" := fun he => hns (by rw [he]; rfl)
    rw [validateDescription_errors]
    simp only [descErrs]
    simp [hne, hns]

/-- C8 witness: a non-blank short description emits no error. -/
theorem validateDescription_cases_witness :
    (validateDescription (some (.str "does things")) (mkResult "p")).errors =
      (mkResult "p").errors ++
        (if ("does things" : String).length > maxDescriptionLength then
          [descLenErr "does things"]
        else []) :=
  (validateDescription_cases (some (.str "does things")) (mkResult "p")).2
    "does things" rfl (by decide)

/-! ### Claim C2 and C9 witnesses -/

/-- A filesystem on which every path is absent. -/
def fsAbsent : FS :=
  { resolve := fun p => p,
    pathExists := fun _ => false,
    isDir := fun _ => false,
    readText := fun _ => Except.error "io" }

/-- C2 witness: on a filesystem where the path does not exist, the result
carries exactly the path-does-not-exist error. -/
theorem validateSkill_never_raises_terminal_errors_witness :
    (validateSkill asciiU yUnused fsAbsent ⟨["a"]⟩).errors =
      [⟨"Path does not exist: " ++ (fsAbsent.resolve ⟨["a"]⟩).toStr, none, "SKILL.md", none⟩] :=
  (validateSkill_never_raises_terminal_errors asciiU yUnused fsAbsent ⟨["a"]⟩).1 rfl

/-- Like `fsAbsent` but answering differently for an unrelated path. -/
def fsAbsentB : FS :=
  { resolve := fun p => p,
    pathExists := fun _ => false,
    isDir := fun _ => false,
    readText := fun p =>
      if p.segments == ["other"] then Except.ok "data" else Except.error "io" }

/-- C9 witness: two filesystems differing only outside the queried paths
give identical results for directory `a`. -/
theorem validateSkill_deterministic_frame_witness :
    validateSkill asciiU yUnused fsAbsent ⟨["a"]⟩ =
      validateSkill asciiU yUnused fsAbsentB ⟨["a"]⟩ :=
  validateSkill_deterministic_frame asciiU yUnused fsAbsent fsAbsentB ⟨["a"]⟩ ⟨["a"]⟩
    rfl rfl rfl rfl rfl rfl rfl rfl

/-! ### Claim C10: every error is attributed to "SKILL.md" -/

theorem eq_of_mem_ite_singleton {α : Type} {c : Prop} [Decidable c] {e a : α}
    (h : e ∈ (if c then [a] else [])) : e = a := by
  split at h
  · simpa using h
  · simp at h

theorem nameCheckErrs_file (U : PyUnicode) (n : String) :
    ∀ e ∈ nameCheckErrs U n, e.file = "SKILL.md" := by
  intro e he
  simp only [nameCheckErrs, List.mem_append] at he
  rcases he with (((he | he) | he) | he) | he <;> rw [eq_of_mem_ite_singleton he] <;> rfl

theorem validateNameErrs_file (U : PyUnicode) (v : Val) (dir : Option Path) :
    ∀ e ∈ validateNameErrs U v dir, e.file = "SKILL.md" := by
  intro e he
  cases v with
  | dict kvs => simp only [validateNameErrs, List.mem_singleton] at he; rw [he]; rfl
  | list vs => simp only [validateNameErrs, List.mem_singleton] at he; rw [he]; rfl
  | str s =>
    simp only [validateNameErrs] at he
    split at he
    · simp only [List.mem_singleton] at he; rw [he]; rfl
    · rcases List.mem_append.mp he with he | he
      · exact nameCheckErrs_file U _ e he
      · cases dir with
        | none => simp at he
        | some d => rw [eq_of_mem_ite_singleton he]; rfl

theorem descErrs_file (v : Option Val) : ∀ e ∈ descErrs v, e.file = "SKILL.md" := by
  intro e he
  rcases v with - | v
  · simp only [descErrs, List.mem_singleton] at he; rw [he]; rfl
  · rcases v with s | kvs | vs
    · simp only [descErrs] at he
      split at he
      · simp only [List.mem_singleton] at he; rw [he]; rfl
      · split at he
        · simp only [List.mem_singleton] at he; rw [he]; rfl
        · simp at he
    · simp only [descErrs, List.mem_singleton] at he; rw [he]; rfl
    · simp only [descErrs, List.mem_singleton] at he; rw [he]; rfl

theorem compatErrs_file (v : Val) : ∀ e ∈ compatErrs v, e.file = "SKILL.md" := by
  intro e he
  rcases v with s | kvs | vs
  · simp only [compatErrs] at he
    split at he
    · simp only [List.mem_singleton] at he; rw [he]
    · simp at he
  · simp only [compatErrs, List.mem_singleton] at he; rw [he]
  · simp only [compatErrs, List.mem_singleton] at he; rw [he]

theorem wlErrs_file (metadata : List (String × Val)) :
    ∀ e ∈ wlErrs metadata, e.file = "SKILL.md" := by
  intro e he
  simp only [wlErrs] at he
  split at he
  · simp at he
  · simp only [List.mem_singleton] at he; rw [he]

theorem namePhaseErrs_file (U : PyUnicode) (metadata : List (String × Val)) (d : Path) :
    ∀ e ∈ namePhaseErrs U metadata d, e.file = "SKILL.md" := by
  intro e he
  simp only [namePhaseErrs] at he
  split at he
  · simp only [List.mem_singleton] at he; rw [he]; rfl
  · exact validateNameErrs_file U _ _ e he

theorem descPhaseErrs_file (metadata : List (String × Val)) :
    ∀ e ∈ descPhaseErrs metadata, e.file = "SKILL.md" := by
  intro e he
  simp only [descPhaseErrs] at he
  split at he
  · simp only [List.mem_singleton] at he; rw [he]; rfl
  · exact descErrs_file _ e he

theorem compatPhaseErrs_file (metadata : List (String × Val)) :
    ∀ e ∈ compatPhaseErrs metadata, e.file = "SKILL.md" := by
  intro e he
  simp only [compatPhaseErrs] at he
  split at he
  · exact compatErrs_file _ e he
  · simp at he

/-- C10: every `ValidationError` produced by a `validate_skill` pass has its
`file` field equal to the literal string "SKILL.md" — no call site of
`add_error` overrides the default file name, including when the file found
and read was the lowercase fallback `skill.md`. -/
theorem validationErrors_file_is_SKILLmd (U : PyUnicode)
    (yload : String → Except String Val) (fs : FS) (p : Path) :
    ∀ e ∈ (validateSkill U yload fs p).errors, e.file = "SKILL.md" := by
  intro e he
  simp only [validateSkill] at he
  split at he
  · simp only [mkResult, errors_addError, List.nil_append, List.mem_singleton] at he
    rw [he]
  · split at he
    · simp only [mkResult, errors_addError, List.nil_append, List.mem_singleton] at he
      rw [he]
    · split at he
      · simp only [mkResult, errors_addError, List.nil_append, List.mem_singleton] at he
        rw [he]
      · split at he
        · simp only [mkResult, errors_addError, List.nil_append, List.mem_singleton] at he
          rw [he]
        · split at he
          · simp only [mkResult, errors_addError, List.nil_append, List.mem_singleton] at he
            rw [he]
          · rw [fieldPhase_errors] at he
            simp only [mkResult, List.nil_append, List.mem_append] at he
            rcases he with ((he | he) | he) | he
            · exact wlErrs_file _ e he
            · exact namePhaseErrs_file U _ _ e he
            · exact descPhaseErrs_file _ e he
            · exact compatPhaseErrs_file _ e he

/-- A filesystem holding only the lowercase fallback `skill.md` under
directory `s`. -/
def fsLowercase : FS :=
  { resolve := fun p => p,
    pathExists := fun p => p.segments == ["s"] || p.segments == ["s", "skill.md"],
    isDir := fun p => p.segments == ["s"],
    readText := fun p =>
      if p.segments == ["s", "skill.md"] then Except.ok "---\na: b\n---\nbody"
      else Except.error "io" }

/-- C10 witness: a pass that reads the lowercase `skill.md` still attributes
its errors to "SKILL.md". -/
theorem validationErrors_file_is_SKILLmd_witness : missingNameErr.file = "SKILL.md" :=
  validationErrors_file_is_SKILLmd asciiU yEmptyDict fsLowercase ⟨["s"]⟩ missingNameErr
    (by decide)

end SkillDoctor
